import Mathlib

/-!
Shallow embedding of the FinTech backend (src/api/index.py and
src/models/expense.py) and proofs about its behaviour.

Conventions of the embedding:
  - Python strings are Lean `String`; machine integers do not occur.
  - Environment variables are `Option String` (`none` = unset).
  - HTTP responses from the document store are passed in as explicit values;
    a handler that issues requests returns the transcript of requests it made
    together with its result.
  - Python exceptions are modelled with `Except`; the distinct `RuntimeError` /
    `AttributeError` / `HTTPException` sites of the source are distinguished by
    constructors of `BackendError`.
-/

namespace FinTech

/-- Errors raised by the backend; each constructor corresponds to one raise
site in src/api/index.py. -/
inductive BackendError where
  | configUrlMissing
  | dbNameEmpty
  | dbNameInvalid
  | unauthorizedAccess
  | failedQuery (status : Nat) (body : String)
  | unauthorizedCreate
  | failedEnsure (status : Nat) (body : String)
  | attributeError (attr : String)
  | couchError (status : Nat) (body : String)
deriving DecidableEq, Repr

/-! ## Python string primitives used by the source -/

/-- The double-quote character. -/
def dquote : Char := Char.ofNat 34

/-- The single-quote character. -/
def squote : Char := Char.ofNat 39

/-- Characters stripped by Python str.strip() with no argument (ASCII
whitespace: space, tab, newline, carriage return, vertical tab, form feed). -/
def isPyWhitespace (c : Char) : Bool :=
  c = ' ' || c = '\t' || c = '\n' || c = '\x0d' || c = '\x0b' || c = '\x0c'

/-- Removes characters satisfying p from both ends of a string, as Python
str.strip does. -/
def stripEnds (p : Char → Bool) (s : String) : String :=
  ⟨((s.data.dropWhile p).reverse.dropWhile p).reverse⟩

/-- Python str.strip() with no argument. -/
def pyStrip (s : String) : String := stripEnds isPyWhitespace s

/-- Python str.strip(c) for a one-character argument. -/
def pyStripChar (c : Char) (s : String) : String := stripEnds (fun x => x = c) s

/-- Python str.rstrip(c) for a one-character argument. -/
def pyRstrip (c : Char) (s : String) : String :=
  ⟨(s.data.reverse.dropWhile (fun x => x = c)).reverse⟩

/-- Python truthiness-based alternative: x or y for strings/None, as used in
the os.getenv fallback chains (None and the empty string are falsy). -/
def envOr (v : Option String) (fallback : String) : String :=
  match v with
  | none => fallback
  | some s => if s = "" then fallback else s

/-- Python x or y on two strings (the empty string is falsy). -/
def pyOrStr (x y : String) : String := if x = "" then y else x

/-! ## Config Resolver (get_couch_config, src/api/index.py lines 17-32) -/

/-- The configuration record returned by get_couch_config. -/
structure CouchConfig where
  base_url : String
  db : String
deriving DecidableEq, Repr

/-- Embedding of get_couch_config. The four arguments are the values of the
environment variables COUCHDB_URL, NEXT_PUBLIC_COUCHDB_URL, COUCHDB_DB and
NEXT_PUBLIC_DB_NAME. The RuntimeError raised when the URL is empty is caught
and re-raised as an HTTP 500 in the source; both are `configUrlMissing` here. -/
def get_couch_config (urlPrimary urlFallback dbPrimary dbFallback : Option String) :
    Except BackendError CouchConfig :=
  let couch_url :=
    pyStripChar squote (pyStripChar dquote (pyStrip (envOr urlPrimary (envOr urlFallback ""))))
  let db_name := pyStrip (envOr dbPrimary (envOr dbFallback "fintech"))
  if couch_url = "" then .error .configUrlMissing
  else .ok ⟨pyRstrip '/' couch_url, db_name⟩

/-- Modelled from the spec: the first non-empty entry of an ordered list of
configuration sources, with a final default. Used to state the Config
Resolver claim. -/
def first_nonempty : List (Option String) → String → String
  | [], dflt => dflt
  | none :: rest, dflt => first_nonempty rest dflt
  | some s :: rest, dflt => if s = "" then first_nonempty rest dflt else s

/-- Modelled from the spec: the Config Resolver contract of section 4.1 -
pick the first non-empty URL variable, trim whitespace then surrounding
double- and single-quote characters, fail when nothing is left, otherwise
return the trailing-slash-stripped URL together with the trimmed database
name (first non-empty of the two name variables, defaulting to fintech). -/
def resolve_config_spec (urlPrimary urlFallback dbPrimary dbFallback : Option String) :
    Except BackendError CouchConfig :=
  let url :=
    pyStripChar squote (pyStripChar dquote (pyStrip (first_nonempty [urlPrimary, urlFallback] "")))
  let name := pyStrip (first_nonempty [dbPrimary, dbFallback] "fintech")
  if url = "" then .error .configUrlMissing
  else .ok ⟨pyRstrip '/' url, name⟩

/-! ## Name Validator (validate_db_name, src/api/index.py lines 35-42) -/

/-- Lowercase ASCII letter. -/
def isLowerAlpha (c : Char) : Bool := 'a' ≤ c && c ≤ 'z'

/-- A character matched by the regex class of the pattern: lowercase letter,
digit, underscore, dollar, parentheses, plus, hyphen, slash. -/
def isDbTailChar (c : Char) : Bool :=
  isLowerAlpha c || c.isDigit || c = '_' || c = '$' || c = '(' ||
    c = ')' || c = '+' || c = '-' || c = '/'

/-- The database-name grammar of the spec (section 4.2): one lowercase ASCII
letter followed by zero or more of the tail characters above. This is also
the core of the source regex, read without anchor subtleties. -/
def db_name_grammar (s : String) : Bool :=
  match s.data with
  | [] => false
  | c :: cs => isLowerAlpha c && cs.all isDbTailChar

/-- Embedding of re.match against the pattern of validate_db_name. In Python,
without re.MULTILINE, the dollar anchor matches at the end of the string and
also just before a newline that ends the string, so the pattern accepts both
a grammar match and a grammar match followed by one final newline. -/
def re_match_db_pattern (s : String) : Bool :=
  db_name_grammar s ||
    (match s.data.getLast? with
     | some c => c = '\n' && db_name_grammar ⟨s.data.dropLast⟩
     | none => false)

/-- Embedding of validate_db_name. The isinstance check cannot fail in the
typed embedding; an empty name raises first, then the regex is consulted. -/
def validate_db_name (db_name : String) : Except BackendError Unit :=
  if db_name = "" then .error .dbNameEmpty
  else if re_match_db_pattern db_name then .ok ()
  else .error .dbNameInvalid

/-! ## Percent-encoding (urllib.parse.quote with safe set empty) -/

/-- Uppercase hexadecimal digit. -/
def hexDigit (n : Nat) : Char := "0123456789ABCDEF".data.getD n '0'

/-- UTF-8 encoding of one character, as a list of byte values. -/
def utf8Bytes (c : Char) : List Nat :=
  let n := c.toNat
  if n < 128 then [n]
  else if n < 2048 then [192 + n / 64, 128 + n % 64]
  else if n < 65536 then [224 + n / 4096, 128 + (n / 64) % 64, 128 + n % 64]
  else [240 + n / 262144, 128 + (n / 4096) % 64, 128 + (n / 64) % 64, 128 + n % 64]

/-- Characters urllib.parse.quote never encodes even with safe set empty:
ASCII letters, digits, underscore, dot, hyphen, tilde. -/
def isQuoteSafe (c : Char) : Bool :=
  c.isAlpha || c.isDigit || c = '_' || c = '.' || c = '-' || c = '~'

/-- Percent-encoding of a single byte value. -/
def pctEncodeByte (b : Nat) : String := ⟨['%', hexDigit (b / 16), hexDigit (b % 16)]⟩

/-- Embedding of urllib.parse.quote(s, safe=empty string). -/
def pyQuote (s : String) : String :=
  String.join (s.data.map (fun c =>
    if isQuoteSafe c then String.singleton c else String.join ((utf8Bytes c).map pctEncodeByte)))

/-- The database path used by ensure_db_exists (line 47). -/
def db_path (base_url db : String) : String := base_url ++ "/" ++ pyQuote db

/-! ## Database Existence Ensurer (ensure_db_exists, lines 45-67) -/

/-- HTTP methods issued by the backend. -/
inductive HttpMethod where
  | get
  | put
  | post
deriving DecidableEq, Repr

/-- An outbound request, recorded in a transcript. -/
structure HttpRequest where
  method : HttpMethod
  path : String
deriving DecidableEq, Repr

/-- A response from the document store: status_code and text body. -/
structure HttpResponse where
  status_code : Nat
  text : String
deriving DecidableEq, Repr

/-- Embedding of ensure_db_exists. get_res is the store's answer to the GET
on the database path; put_res is the answer the store would give to the PUT
(consulted only on the 404 branch). The returned list is the transcript of
requests issued. -/
def ensure_db_exists (base_url db : String) (get_res put_res : HttpResponse) :
    List HttpRequest × Except BackendError Unit :=
  match validate_db_name db with
  | .error e => ([], .error e)
  | .ok () =>
    let path := db_path base_url db
    if get_res.status_code == 200 then ([⟨.get, path⟩], .ok ())
    else if get_res.status_code == 401 || get_res.status_code == 403 then
      ([⟨.get, path⟩], .error .unauthorizedAccess)
    else if get_res.status_code != 404 then
      ([⟨.get, path⟩], .error (.failedQuery get_res.status_code get_res.text))
    else
      ([⟨.get, path⟩, ⟨.put, path⟩],
        if [200, 201, 202, 412].contains put_res.status_code then .ok ()
        else if put_res.status_code == 401 || put_res.status_code == 403 then
          .error .unauthorizedCreate
        else .error (.failedEnsure put_res.status_code put_res.text))

/-- Modelled from the spec: the state machine of section 4.3 for a validated
name - GET 200 succeeds with no PUT; GET 401/403 fails unauthorized with no
PUT; GET 404 issues exactly one PUT to the same path, succeeding exactly on
PUT status 200/201/202/412, failing unauthorized on PUT 401/403 and with a
store error carrying status and body otherwise; any other GET status fails
with a store error carrying status and body. -/
def ensure_spec (path : String) (get_res put_res : HttpResponse) :
    List HttpRequest × Except BackendError Unit :=
  if get_res.status_code == 200 then ([⟨.get, path⟩], .ok ())
  else if get_res.status_code == 401 || get_res.status_code == 403 then
    ([⟨.get, path⟩], .error .unauthorizedAccess)
  else if get_res.status_code == 404 then
    ([⟨.get, path⟩, ⟨.put, path⟩],
      if [200, 201, 202, 412].contains put_res.status_code then .ok ()
      else if put_res.status_code == 401 || put_res.status_code == 403 then
        .error .unauthorizedCreate
      else .error (.failedEnsure put_res.status_code put_res.text))
  else ([⟨.get, path⟩], .error (.failedQuery get_res.status_code get_res.text))

/-! ## ID Generator (generate_short_id, src/api/index.py lines 70-72) -/

/-- The alphabet literal of generate_short_id. -/
def ID_ALPHABET : String := "23456789ABCDEFGHJKLMNPQRSTUVWXYZabcdefghjkmnpqrstuvwxyz"

/-- Embedding of generate_short_id. secrets.choice picks one element of the
alphabet per step; the sequence of picks is modelled by the choice function,
which may be any sequence of in-range indices (the library guarantees each
pick is uniform over the alphabet; nothing below depends on the
distribution). The length argument defaults to 7 as in the source. -/
def generate_short_id (choice : Nat → Fin ID_ALPHABET.data.length) (length : Nat := 7) :
    String :=
  ⟨(List.range length).map (fun i => ID_ALPHABET.data.get (choice i))⟩

/-! ## Entry models (src/models/expense.py) -/

/-- The Literal type of EntryCreate.entryType. -/
inductive EntryType where
  | expense
  | income
deriving DecidableEq, Repr

/-- The string value of an entryType literal. -/
def EntryType.str : EntryType → String
  | .expense => "expense"
  | .income => "income"

/-- The Literal type of EntryCreate.recordedBy. -/
inductive RecordedBy where
  | voice
  | manual
deriving DecidableEq, Repr

/-- The string value of a recordedBy literal. -/
def RecordedBy.str : RecordedBy → String
  | .voice => "voice"
  | .manual => "manual"

/-- The EntryMeta pydantic model. -/
structure EntryMeta where
  voiceText : Option String := none
  asrConfidence : Option Rat := none
  lang : Option String := none
deriving DecidableEq, Repr

/-- A validated EntryCreate instance: the fields of the pydantic model after
validation, with Literal fields as enumerations. Note that the model declares
no date field. -/
structure EntryCreate where
  entryType : EntryType
  category : String
  amount : Rat
  currency : String
  paymentMethod : String
  notes : Option String
  recordedBy : RecordedBy
  deviceId : Option String
  meta : Option EntryMeta
deriving DecidableEq, Repr

/-- A raw create-request body before pydantic validation; none means the
field is absent from the JSON object. Extra keys of the body (ignored by
pydantic under its default config) are not represented. Numbers are embedded
as rationals; the handler only copies them, so no floating-point arithmetic
is modelled. -/
structure RawEntryCreate where
  entryType : Option String := none
  category : Option String := none
  amount : Option Rat := none
  currency : Option String := none
  paymentMethod : Option String := none
  notes : Option String := none
  recordedBy : Option String := none
  deviceId : Option String := none
  meta : Option EntryMeta := none
deriving DecidableEq, Repr

/-- Validation errors produced by the pydantic layer for EntryCreate. -/
inductive ValidationError where
  | missingField (f : String)
  | invalidLiteral (f : String)
  | tooShort (f : String)
  | outOfRange (f : String)
deriving DecidableEq, Repr

/-- Validation of EntryMeta: asrConfidence is constrained to [0, 1]. -/
def validate_meta (m : EntryMeta) : Except ValidationError EntryMeta :=
  match m.asrConfidence with
  | none => .ok m
  | some q => if 0 ≤ q ∧ q ≤ 1 then .ok m else .error (.outOfRange "asrConfidence")

/-- Pydantic validation of a create-request body against EntryCreate:
entryType, category and amount are required; entryType and recordedBy must be
their Literal values; currency defaults to PKR when absent but is rejected
when present with length below min_length 1; paymentMethod defaults to cash;
recordedBy defaults to manual. -/
def EntryCreate.parse (r : RawEntryCreate) : Except ValidationError EntryCreate := do
  let et ← match r.entryType with
    | some "expense" => Except.ok EntryType.expense
    | some "income" => Except.ok EntryType.income
    | some _ => Except.error (ValidationError.invalidLiteral "entryType")
    | none => Except.error (ValidationError.missingField "entryType")
  let cat ← match r.category with
    | some c => Except.ok c
    | none => Except.error (ValidationError.missingField "category")
  let amt ← match r.amount with
    | some a => Except.ok a
    | none => Except.error (ValidationError.missingField "amount")
  let cur ← match r.currency with
    | none => Except.ok "PKR"
    | some c =>
      if c.length ≥ 1 then Except.ok c else Except.error (ValidationError.tooShort "currency")
  let pm := r.paymentMethod.getD "cash"
  let rb ← match r.recordedBy with
    | none => Except.ok RecordedBy.manual
    | some "voice" => Except.ok RecordedBy.voice
    | some "manual" => Except.ok RecordedBy.manual
    | some _ => Except.error (ValidationError.invalidLiteral "recordedBy")
  let mt ← match r.meta with
    | none => Except.ok none
    | some m => do
      let v ← validate_meta m
      Except.ok (some v)
  Except.ok ⟨et, cat, amt, cur, pm, r.notes, rb, r.deviceId, mt⟩

/-! ## Create Entry handler (create_entry, src/api/index.py lines 78-108) -/

/-- The document dict built by create_entry (lines 85-99). -/
structure EntryDoc where
  _id : String
  type : String
  entryType : String
  category : String
  amount : Rat
  currency : String
  paymentMethod : String
  notes : Option String
  createdAt : String
  recordedBy : String
  deviceId : Option String
  syncStatus : String
  meta : Option EntryMeta
deriving DecidableEq, Repr

/-- The attribute read payload.date at line 94 of src/api/index.py.
EntryCreate (src/models/expense.py lines 12-21) declares no field named date,
and a pydantic BaseModel raises AttributeError when an undeclared attribute
is read, so this access raises for every payload. -/
def payload_date_attr (_p : EntryCreate) : Except BackendError (Option String) :=
  .error (.attributeError "date")

/-- Python x or y where x is an optional string: None and the empty string
fall back to y. -/
def pyOrOptStr (x : Option String) (y : String) : String :=
  match x with
  | none => y
  | some s => if s = "" then y else s

/-- The document construction of create_entry (lines 85-99): evaluating the
dict literal reads payload.date, which raises, so no document is produced.
The remaining entries are written as the source writes them. -/
def build_entry_doc (p : EntryCreate) (now_iso doc_id : String) :
    Except BackendError EntryDoc := do
  let date ← payload_date_attr p
  Except.ok
    { _id := doc_id
      type := "entry"
      entryType := p.entryType.str
      category := p.category
      amount := p.amount
      currency := pyOrStr p.currency "PKR"
      paymentMethod := pyOrStr p.paymentMethod "cash"
      notes := p.notes
      createdAt := pyOrOptStr date now_iso
      recordedBy := p.recordedBy.str
      deviceId := p.deviceId
      syncStatus := "local"
      meta := p.meta }

/-- Embedding of the create_entry handler body after config resolution:
now_iso is the formatted server time, short_id the generated id, and store
maps the posted document to the response the store would give. The first
component is the list of documents actually POSTed to the store. A store
status outside 200/201/202 raises HTTPException 500 with the store body. -/
def create_entry (p : EntryCreate) (now_iso short_id : String)
    (store : EntryDoc → HttpResponse) : List EntryDoc × Except BackendError EntryDoc :=
  let doc_id := "#" ++ short_id
  match build_entry_doc p now_iso doc_id with
  | .error e => ([], .error e)
  | .ok doc =>
    let res := store doc
    if [200, 201, 202].contains res.status_code then ([doc], .ok doc)
    else ([doc], .error (.couchError res.status_code res.text))

/-! ## List Entries handler (list_entries, src/api/index.py lines 111-140) -/

/-- JSON values, for the store's listing response. -/
inductive Jv where
  | null
  | bool (b : Bool)
  | num (q : Rat)
  | str (s : String)
  | arr (elems : List Jv)
  | obj (fields : List (String × Jv))

/-- Lookup of a key in a JSON object's fields (keys of a parsed JSON object
are distinct, so first match suffices); Python dict.get returning None for a
missing key is the none case. -/
def jv_lookup : List (String × Jv) → String → Option Jv
  | [], _ => none
  | (k, v) :: rest, key => if k == key then some v else jv_lookup rest key

/-- Whether a JSON value is an object (Python isinstance(x, dict)). -/
def Jv.isObj : Jv → Bool
  | .obj _ => true
  | _ => false

/-- The filter condition of list_entries line 136: the doc value is a dict
and its type key holds the string entry. -/
def keep_row_doc (d : Jv) : Bool :=
  match d with
  | .obj fields =>
    match jv_lookup fields "type" with
    | some (.str t) => t == "entry"
    | _ => false
  | _ => false

/-- The read row.get(doc-key) at line 135: defined for dict rows, raising
AttributeError otherwise (dict.get exists only on dicts). -/
def row_doc (row : Jv) : Except BackendError (Option Jv) :=
  match row with
  | .obj fields => .ok (jv_lookup fields "doc")
  | _ => .error (.attributeError "get")

/-- The row loop of list_entries lines 133-137: walk the rows in order,
read each row's doc, and keep those docs that are dicts of type entry. -/
def collect_entry_docs : List Jv → Except BackendError (List Jv)
  | [] => .ok []
  | row :: rest => do
    let d ← row_doc row
    let tail ← collect_entry_docs rest
    Except.ok
      (match d with
       | some doc => if keep_row_doc doc then doc :: tail else tail
       | none => tail)

/-- Modelled from the spec: the List Entries filter of section 4.6 - keep
exactly the rows whose embedded document is an object whose type field equals
entry, in the order supplied by the store, silently excluding rows whose
document is missing, not an object, or of another type. -/
def entry_docs_spec (rows : List Jv) : List Jv :=
  rows.filterMap (fun row =>
    match row with
    | .obj fields =>
      match jv_lookup fields "doc" with
      | some d => if keep_row_doc d then some d else none
      | none => none
    | _ => none)

/-- A five-row listing of mixed shapes, used as a concrete run of the List
Entries filter. -/
def demo_rows : List Jv :=
  [Jv.obj [("id", Jv.str "a"),
           ("doc", Jv.obj [("type", Jv.str "entry"), ("amount", Jv.num 5)])],
   Jv.obj [("id", Jv.str "b"), ("doc", Jv.obj [("type", Jv.str "budget")])],
   Jv.obj [("id", Jv.str "c")],
   Jv.obj [("id", Jv.str "d"), ("doc", Jv.str "hello")],
   Jv.obj [("id", Jv.str "e"), ("doc", Jv.obj [("note", Jv.null)])]]

/-! ## Helper lemmas -/

lemma except_bind_ok {ε α β : Type} (x : α) (f : α → Except ε β) :
    (Except.ok (ε := ε) x >>= f) = f x := rfl

lemma string_data_append (s t : String) : (s ++ t).data = s.data ++ t.data := by
  cases s; cases t; rfl

lemma string_length_data (s : String) : s.length = s.data.length := rfl

lemma string_ext {s t : String} (h : s.data = t.data) : s = t :=
  congrArg String.mk h

lemma validate_ok_iff (s : String) :
    validate_db_name s = Except.ok () ↔ re_match_db_pattern s = true := by
  unfold validate_db_name
  by_cases he : s = ""
  · subst he
    constructor
    · intro hc
      simp at hc
    · intro hre
      exact absurd hre (by decide)
  · rw [if_neg he]
    by_cases hm : re_match_db_pattern s = true
    · simp [hm]
    · have hm2 : re_match_db_pattern s = false := by simpa using hm
      simp [hm2]

lemma re_match_of_grammar {s : String} (h : db_name_grammar s = true) :
    re_match_db_pattern s = true := by
  unfold re_match_db_pattern
  rw [h]
  rfl

lemma re_match_newline {t : String} (h : db_name_grammar t = true) :
    re_match_db_pattern (t ++ "\n") = true := by
  have hdata : (t ++ "\n").data = t.data ++ ['\n'] := by
    rw [string_data_append]
  have heta : (⟨t.data⟩ : String) = t := by cases t; rfl
  unfold re_match_db_pattern
  rw [hdata]
  simp [List.getLast?_concat, List.dropLast_concat, heta, h]

lemma envOr_first_nonempty (v : Option String) (rest : List (Option String)) (dflt : String) :
    envOr v (first_nonempty rest dflt) = first_nonempty (v :: rest) dflt := by
  cases v with
  | none => simp [envOr, first_nonempty]
  | some s => by_cases h : s = "" <;> simp [envOr, first_nonempty, h]

/-! ## Claims -/

/-- C1: the claim says that whenever the store answers the handler's POST with
status 200, 201 or 202, create_entry returns the created document. In fact the
handler never reaches its POST: building the document reads payload.date,
which EntryCreate does not declare, so every request fails with an
AttributeError (transcript of posted documents is empty) regardless of the
store. -/
theorem claim_C1 (p : EntryCreate) (now_iso short_id : String)
    (store : EntryDoc → HttpResponse) :
    create_entry p now_iso short_id store =
      ([], Except.error (BackendError.attributeError "date")) := rfl

/-- C2: the claim says createdAt equals the caller-supplied date when present
and the formatted server time otherwise. In fact the document construction
raises AttributeError at the payload.date read for every payload, since
EntryCreate declares no date field; no document (and hence no createdAt) is
ever produced. -/
theorem claim_C2 (p : EntryCreate) (now_iso doc_id : String) :
    build_entry_doc p now_iso doc_id =
      Except.error (BackendError.attributeError "date") := rfl

/-- C3 counterexample: the claim fixes the id alphabet at 57 characters, but
the alphabet literal of generate_short_id has 55 characters (it drops the
seven ambiguous characters zero, one, capital i, capital o, lowercase i,
lowercase l and lowercase o from the 62 alphanumerics). -/
theorem claim_C3_counterexample : (ID_ALPHABET.length == 57) = false := by decide

/-- C3 (amended to the actual 55-character alphabet): for every sequence of
in-range picks, the document identifier built from generate_short_id at its
default length 7 is a hash sign followed by exactly 7 characters of the
alphabet, and the alphabet has 55 characters. -/
theorem claim_C3 (choice : Nat → Fin ID_ALPHABET.data.length) :
    ID_ALPHABET.length = 55 ∧
    ("#" ++ generate_short_id choice).length = 8 ∧
    ("#" ++ generate_short_id choice).data.head? = some '#' ∧
    ∀ c ∈ ("#" ++ generate_short_id choice).data.tail, c ∈ ID_ALPHABET.data := by
  have hdata : (generate_short_id choice).data =
      (List.range 7).map (fun i => ID_ALPHABET.data.get (choice i)) := rfl
  refine ⟨by decide, ?_, ?_, ?_⟩
  · rw [string_length_data, string_data_append, hdata]
    simp
  · rw [string_data_append, hdata]
    rfl
  · intro c hc
    rw [string_data_append, hdata] at hc
    have hc2 : c ∈ (List.range 7).map (fun i => ID_ALPHABET.data.get (choice i)) := hc
    rcases List.mem_map.mp hc2 with ⟨i, _, rfl⟩
    exact List.get_mem _ _ _

/-- C7: the claim says omitted currency, paymentMethod and recordedBy default
to PKR, cash and manual, and that an empty currency also defaults. In fact:
the pydantic defaults for omitted fields do hold at validation time (first
conjunct), but an empty currency is rejected by min_length 1 rather than
defaulted (second conjunct), and no built document ever exists because the
construction raises AttributeError at the payload.date read (third
conjunct). -/
theorem claim_C7 :
    (∀ q : Rat,
      EntryCreate.parse
        { entryType := some "expense", category := some "food", amount := some q } =
        Except.ok ⟨.expense, "food", q, "PKR", "cash", none, .manual, none, none⟩) ∧
    (∀ q : Rat,
      EntryCreate.parse
        { entryType := some "expense", category := some "food", amount := some q,
          currency := some "" } =
        Except.error (ValidationError.tooShort "currency")) ∧
    (∀ q : Rat, ∀ now_iso doc_id : String,
      build_entry_doc ⟨.expense, "food", q, "PKR", "cash", none, .manual, none, none⟩
          now_iso doc_id =
        Except.error (BackendError.attributeError "date")) :=
  ⟨fun _ => rfl, fun _ => rfl, fun _ _ _ => rfl⟩

/-- C8: the Config Resolver picks the first non-empty URL variable and the
first non-empty name variable with fintech as final default, trims whitespace
then surrounding double and single quotes from the URL, strips trailing
slashes, trims the name, and fails exactly when no URL remains; stated as
equality with the resolver modelled from the spec, over all four environment
variables. -/
theorem claim_C8 (urlPrimary urlFallback dbPrimary dbFallback : Option String) :
    get_couch_config urlPrimary urlFallback dbPrimary dbFallback =
      resolve_config_spec urlPrimary urlFallback dbPrimary dbFallback := by
  unfold get_couch_config resolve_config_spec
  rw [show envOr urlFallback "" = first_nonempty [urlFallback] "" from
        envOr_first_nonempty urlFallback [] "",
      envOr_first_nonempty urlPrimary [urlFallback] "",
      show envOr dbFallback "fintech" = first_nonempty [dbFallback] "fintech" from
        envOr_first_nonempty dbFallback [] "fintech",
      envOr_first_nonempty dbPrimary [dbFallback] "fintech"]

/-- C9: the claim says every document produced by the create-entry handler has
type entry and syncStatus local. The code never produces any document: the
construction raises AttributeError at the payload.date read for every
payload, so the invariant is vacuous (no successfully built document
exists). -/
theorem claim_C9 (p : EntryCreate) (now_iso doc_id : String) :
    (build_entry_doc p now_iso doc_id).toOption = none := rfl

/-- C4: for every base URL, every database name the validator accepts and
every pair of store answers, ensure_db_exists behaves exactly as the state
machine of the spec: GET 200 succeeds with no PUT; GET 401/403 fails
unauthorized with no PUT; GET 404 issues exactly one PUT to the same path,
succeeding exactly on PUT status 200/201/202/412, failing unauthorized on PUT
401/403 and with a store error carrying status and body otherwise; any other
GET status fails with a store error carrying status and body. -/
theorem claim_C4 (base_url db : String) (get_res put_res : HttpResponse)
    (h : validate_db_name db = Except.ok ()) :
    ensure_db_exists base_url db get_res put_res =
      ensure_spec (db_path base_url db) get_res put_res := by
  unfold ensure_db_exists ensure_spec
  rw [h]
  by_cases h1 : (get_res.status_code == 200) = true
  · simp [h1]
  · by_cases h2 : (get_res.status_code == 401 || get_res.status_code == 403) = true
    · simp [h1, h2]
    · by_cases h3 : (get_res.status_code == 404) = true
      · have h4 : (get_res.status_code != 404) = false := by simp [bne, h3]
        simp [h1, h2, h3, h4]
      · have h4 : (get_res.status_code != 404) = true := by simp [bne, h3]
        simp [h1, h2, h3, h4]

/-- C4 witness: a concrete run on the 404-then-412 race, with the valid name
fintech. -/
theorem claim_C4_witness :
    ensure_db_exists "http://store" "fintech" ⟨404, ""⟩ ⟨412, ""⟩ =
      ensure_spec (db_path "http://store" "fintech") ⟨404, ""⟩ ⟨412, ""⟩ :=
  claim_C4 "http://store" "fintech" ⟨404, ""⟩ ⟨412, ""⟩ (by rfl)

/-- C5 counterexample: the claim says the validator fails exactly on inputs
outside the grammar, but the name fintech followed by a newline is outside
the grammar and is nevertheless accepted, because the dollar anchor of the
Python pattern also matches just before a final newline. -/
theorem claim_C5_counterexample :
    validate_db_name "fintech\n" = Except.ok () ∧ db_name_grammar "fintech\n" = false :=
  ⟨rfl, rfl⟩

/-- C5 (amended): validate_db_name succeeds exactly on the grammar-conforming
names and on a grammar-conforming name followed by one trailing newline
(Python dollar-anchor semantics), and fails with the name error otherwise; in
particular fintech passes while Fintech, the empty string and _abc fail. -/
theorem claim_C5 :
    (∀ s : String, validate_db_name s = Except.ok () ↔
      (db_name_grammar s = true ∨
        ∃ t : String, db_name_grammar t = true ∧ s = t ++ "\n")) ∧
    validate_db_name "fintech" = Except.ok () ∧
    validate_db_name "Fintech" = Except.error BackendError.dbNameInvalid ∧
    validate_db_name "" = Except.error BackendError.dbNameEmpty ∧
    validate_db_name "_abc" = Except.error BackendError.dbNameInvalid := by
  refine ⟨?_, rfl, rfl, rfl, rfl⟩
  intro s
  rw [validate_ok_iff]
  constructor
  · intro hre
    unfold re_match_db_pattern at hre
    rw [Bool.or_eq_true] at hre
    rcases hre with hg | hm
    · exact Or.inl hg
    · right
      cases hlast : s.data.getLast? with
      | none =>
        rw [hlast] at hm
        exact absurd hm (by simp)
      | some c =>
        rw [hlast] at hm
        rw [Bool.and_eq_true, decide_eq_true_eq] at hm
        obtain ⟨hc, hg⟩ := hm
        subst hc
        refine ⟨⟨s.data.dropLast⟩, hg, ?_⟩
        apply string_ext
        rw [string_data_append]
        exact (List.dropLast_append_getLast? _ (Option.mem_def.mpr hlast)).symm
  · intro h
    rcases h with hg | ⟨t, hg, rfl⟩
    · exact re_match_of_grammar hg
    · exact re_match_newline hg

/-- C10: the validator accepts any grammar-conforming name followed by a
single trailing newline (the dollar anchor of the Python pattern matches
before a final newline), and such an accepted name is percent-encoded into
the store request path, the newline becoming %0A. -/
theorem claim_C10 :
    (∀ t : String, db_name_grammar t = true →
      validate_db_name (t ++ "\n") = Except.ok ()) ∧
    (∀ base_url : String, db_path base_url "fintech\n" = base_url ++ "/fintech%0A") := by
  constructor
  · intro t h
    exact (validate_ok_iff _).mpr (re_match_newline h)
  · intro base_url
    unfold db_path
    rw [show pyQuote "fintech\n" = "fintech%0A" from rfl, String.append_assoc]
    rfl

/-- C10 witness: the name fintech with a trailing newline is accepted. -/
theorem claim_C10_witness : validate_db_name ("fintech" ++ "\n") = Except.ok () :=
  claim_C10.1 "fintech" (by decide)

/-- C6: for every store listing response (whose rows are JSON objects, as the
store sends them), the row loop of list_entries returns exactly the embedded
documents that are objects whose type field equals entry, in the order
supplied by the store; rows whose document is missing, not an object, or of
another type are silently excluded rather than failing the listing. -/
theorem claim_C6 (rows : List Jv) (h : ∀ r ∈ rows, r.isObj = true) :
    collect_entry_docs rows = Except.ok (entry_docs_spec rows) := by
  induction rows with
  | nil => rfl
  | cons r rs ih =>
    have hr : r.isObj = true := h r (List.mem_cons_self r rs)
    have ht := ih (fun x hx => h x (List.mem_cons_of_mem r hx))
    cases r with
    | obj fields =>
      cases hd : jv_lookup fields "doc" with
      | none =>
        simp [collect_entry_docs, row_doc, ht, entry_docs_spec, List.filterMap_cons, hd,
          except_bind_ok]
      | some d =>
        by_cases hk : keep_row_doc d = true
        · simp [collect_entry_docs, row_doc, ht, entry_docs_spec, List.filterMap_cons, hd,
            hk, except_bind_ok]
        · have hk2 : keep_row_doc d = false := by simpa using hk
          simp [collect_entry_docs, row_doc, ht, entry_docs_spec, List.filterMap_cons, hd,
            hk2, except_bind_ok]
    | null => simp [Jv.isObj] at hr
    | bool b => simp [Jv.isObj] at hr
    | num q => simp [Jv.isObj] at hr
    | str s => simp [Jv.isObj] at hr
    | arr xs => simp [Jv.isObj] at hr

/-- C6 witness: a listing with five rows of mixed shape - an entry document,
a document of another type, a row with no document, a non-object document and
an object document with no type field - keeps exactly the entry document. -/
theorem claim_C6_witness :
    collect_entry_docs demo_rows =
      Except.ok [Jv.obj [("type", Jv.str "entry"), ("amount", Jv.num 5)]] := by
  have h : ∀ r ∈ demo_rows, r.isObj = true := by
    intro r hr
    simp only [demo_rows, List.mem_cons, List.not_mem_nil, or_false] at hr
    rcases hr with rfl | rfl | rfl | rfl | rfl <;> rfl
  rw [claim_C6 demo_rows h]
  rfl

end FinTech
